import Mathlib

/-!
Shallow embedding of the snedbot_v2 sources:
  - src/utils/helpers.py       (permission checking helpers)
  - src/extensions/error_handler.py  (slash-command error reporting)
  - src/extensions/settings.py (interactive settings menu navigator)

Python-specific conventions used throughout:
  - A Python `enum.Flag` value is a finite set of the enum's declared members:
    `&` is intersection, `|` is union, `~` is complement within the declared
    members, and the zero member (`Permissions.NONE`) is the empty set.  Flag
    values are canonicalised per underlying value, so the source's
    `missing_perms is not hikari.Permissions.NONE` is set non-emptiness.
  - A Python `dict` is an insertion-ordered association list with unique keys;
    `list(d.keys())`/`list(d.values())` enumerate in that shared order.
  - Fallible operations are embedded with `Option`/`Except`: an out-of-range
    lookup that would raise in Python becomes `none`, a raised exception that
    the caller does not catch becomes `Except.error`.
-/

/-! ## src/utils/helpers.py -/

/-- The declared members of the `hikari.Permissions` flag enum that this
development mentions.  Only `administrator` is treated specially by the code
under scrutiny; the remaining constructors keep the universe non-trivial. -/
inductive Perm where
  | administrator
  | kickMembers
  | banMembers
  | manageGuild
  | sendMessages
  | readMessageHistory
  | viewAuditLog
deriving DecidableEq, Fintype, Repr

/-- A `hikari.Permissions` bitfield: a set of declared flag members. -/
abbrev Permissions := Finset Perm

/-- Embeds `helpers.includes_permissions`:
`if permissions & ADMINISTRATOR: return True`;
`missing_perms = ~permissions & should_include`;
`return missing_perms is NONE` (written as two branches in the source). -/
def includes_permissions (permissions should_include : Permissions) : Bool :=
  if Perm.administrator ∈ permissions then
    true
  else
    let missing_perms := permissionsᶜ ∩ should_include
    if missing_perms ≠ ∅ then false else true

/-! ## src/extensions/settings.py : get_key -/

/-- Python's `list.index(v)`: the index of the first occurrence of `v`.
When `v` is absent the result equals the list's length (Python raises
`ValueError` there; the composition in `get_key` then yields `none`). -/
def list_index {V : Type} [DecidableEq V] (v : V) : List V → Nat
  | [] => 0
  | w :: ws => if w = v then 0 else list_index v ws + 1

/-- Embeds `settings.get_key`:
`list(dictionary.keys())[list(dictionary.values()).index(value)]`,
with the dictionary embedded as its insertion-ordered pair list. -/
def get_key {K V : Type} [DecidableEq V] (d : List (K × V)) (value : V) : Option K :=
  (d.map Prod.fst).get? (list_index value (d.map Prod.snd))

/-- First-match specification that `get_key` is compared against: the first
pair (in insertion order) whose value equals `value`, projected to its key. -/
def first_key_for {K V : Type} [DecidableEq V] (d : List (K × V)) (value : V) : Option K :=
  (d.find? (fun p => p.2 = value)).map Prod.fst

/-! ## src/extensions/error_handler.py

The framework exception hierarchy is embedded as a closed tagged type: one
constructor per `isinstance` test the handler performs, plus `other…`
constructors for values matching none of the tests.  Every category response
in the source is sent with `hikari.MessageFlag.EPHEMERAL`, so the embedding
records only which embed variant is produced and whether the error is handed
to `log_error_to_homeguild` (the operator log channel forwarding path). -/

/-- Cause of a `lightbulb.CommandInvocationError` (`error.original`). -/
inductive OriginalError where
  | timeoutError
  | internalServerError
  | forbiddenError
  | roleHierarchyError
  | otherOriginal
deriving DecidableEq, Repr

/-- A `lightbulb.LightbulbError` as discriminated by the handler. -/
inductive LightbulbError where
  | missingRequiredPermission
  | botMissingRequiredPermission
  | otherCheckFailure
  | commandIsOnCooldown
  | commandInvocationError (original : OriginalError)
  | otherLightbulbError
deriving DecidableEq, Repr

/-- The embed variant the handler responds with. -/
inductive Response where
  | missingPermissions
  | botMissingPermissions
  | cooldownPending
  | actionTimedOut
  | discordServerError
  | forbidden
  | roleHierarchy
  | unhandledException
deriving DecidableEq, Repr

/-- What one call of `application_error_handler` does: which embed it responds
with, and whether it invokes `log_error_to_homeguild` (forwarding). -/
structure HandlerResult where
  response : Response
  forwarded : Bool
deriving DecidableEq, Repr

/-- The code past all matched-and-returned branches (source lines 110-123):
log locally, forward the traceback via `log_error_to_homeguild`, respond with
the generic "Unhandled exception" embed. -/
def unhandled_tail : HandlerResult :=
  { response := Response.unhandledException, forwarded := true }

/-- Embeds `application_error_handler`.  Branches mirror the source's
`isinstance` chain; a branch without a `return` in the source falls through to
`unhandled_tail`.  In particular the `hikari.ForbiddenError` branch (source
lines 96-101) builds the "Forbidden" embed but has no `return`, so the built
embed is discarded and control reaches the unhandled tail. -/
def application_error_handler : LightbulbError → HandlerResult
  | LightbulbError.missingRequiredPermission =>
      { response := Response.missingPermissions, forwarded := false }
  | LightbulbError.botMissingRequiredPermission =>
      { response := Response.botMissingPermissions, forwarded := false }
  | LightbulbError.otherCheckFailure => unhandled_tail
  | LightbulbError.commandIsOnCooldown =>
      { response := Response.cooldownPending, forwarded := false }
  | LightbulbError.commandInvocationError orig =>
      match orig with
      | OriginalError.timeoutError =>
          { response := Response.actionTimedOut, forwarded := false }
      | OriginalError.internalServerError =>
          { response := Response.discordServerError, forwarded := false }
      | OriginalError.forbiddenError => unhandled_tail
      | OriginalError.roleHierarchyError =>
          { response := Response.roleHierarchy, forwarded := false }
      | OriginalError.otherOriginal => unhandled_tail
  | LightbulbError.otherLightbulbError => unhandled_tail

/-- The response variant the claim expects for each recognized category. -/
def expected_response : LightbulbError → Option Response
  | LightbulbError.missingRequiredPermission => some Response.missingPermissions
  | LightbulbError.botMissingRequiredPermission => some Response.botMissingPermissions
  | LightbulbError.commandIsOnCooldown => some Response.cooldownPending
  | LightbulbError.commandInvocationError OriginalError.timeoutError => some Response.actionTimedOut
  | LightbulbError.commandInvocationError OriginalError.internalServerError => some Response.discordServerError
  | LightbulbError.commandInvocationError OriginalError.forbiddenError => some Response.forbidden
  | LightbulbError.commandInvocationError OriginalError.roleHierarchyError => some Response.roleHierarchy
  | _ => none

/-! ### log_error_to_homeguild (claims about forwarding and delivery) -/

/-- The runtime configuration surface used by the handler:
`ctx.app.config.get("error_logging_channel")`.  `none` is an absent key or
`None`; Python truthiness additionally treats id `0` as unset. -/
structure BotConfig where
  error_logging_channel : Option Nat
deriving DecidableEq, Repr

/-- `if not channel_id: return` — the channel counts as configured when the
key is present and its value truthy. -/
def channel_configured (cfg : BotConfig) : Bool :=
  match cfg.error_logging_channel with
  | none => false
  | some c => c != 0

/-- Python `try/except Exception` semantics over the `Except` embedding:
run the body; a raised exception is given to the handler. -/
def except_try {α : Type} (body : Except String α) (handler : String → Except String α) :
    Except String α :=
  match body with
  | Except.ok a => Except.ok a
  | Except.error e => handler e

/-- One iteration of the page loop:
`try: await ctx.app.rest.create_message(channel_id, page)`
`except Exception as error: logging.error(...)` — a failed send is caught and
its text prepended to the accumulator of logged failures. -/
def send_one_page (send : String → Except String Unit) (acc : List String) (page : String) :
    Except String (List String) :=
  except_try ((send page).map (fun _ => acc)) (fun e => Except.ok (e :: acc))

/-- Embeds `log_error_to_homeguild` with `ctx` present (as on every call from
`application_error_handler`).  `pages` stands for `paginator.build_pages()`
(the third-party `StringPaginator` is an opaque dependency) and `send` models
`ctx.app.rest.create_message` to the configured channel, `Except.error`
carrying a raised exception's text.  The result is the list of pages whose
send was attempted and the texts of caught send failures; an exception the
function did not catch would surface as `Except.error`. -/
def log_error_to_homeguild (cfg : BotConfig) (pages : List String)
    (send : String → Except String Unit) : Except String (List String × List String) :=
  if channel_configured cfg = false then
    Except.ok ([], [])
  else
    (pages.foldlM (send_one_page send) []).map (fun logged => (pages, logged.reverse))

/-- Pages handed to `create_message` by a finished run (`[]` when the run
would have raised, which the lemmas below rule out). -/
def attempted_pages (r : Except String (List String × List String)) : List String :=
  match r with
  | Except.ok p => p.1
  | Except.error _ => []

/-! ## src/extensions/settings.py : the menu navigator

One invocation of a menu handler is embedded as a step function from the
single interaction outcome (`view.value` after `view.wait()`, plus the
outcome of a nested `helpers.ask` prompt where one occurs) to the ordered
list of observable side effects it performs and the place control goes
next.  Message edits through `helpers.maybe_edit` appear as `Effect.edit`,
`helpers.maybe_delete` as `Effect.delete`, every `ctx.app.pool.execute`
statement as `Effect.dbWrite table column`, and every
`ctx.app.db_cache.refresh` as `Effect.cacheRefresh table`. -/

/-- An observable side effect of a menu handler step, in execution order. -/
inductive Effect where
  | edit
  | delete
  | dbWrite (table : String) (column : String)
  | cacheRefresh (table : String)
deriving DecidableEq, Repr

/-- Where control goes when the step finishes. -/
inductive Next where
  | menu (name : String)
  | errorView (title : String) (returnTo : String)
  | halt
deriving DecidableEq, Repr

/-- `view.value` after `view.wait()`: a string (an `OptionButton` label, an
`OptionsSelect` option value, `"Back"`/`"Quit"`, or `"Timeout"` assigned by
`MenuBaseView.on_timeout`), or the `(label, state)` tuple a `BooleanButton`
callback assigns. -/
inductive ViewValue where
  | str (s : String)
  | boolTuple (label : String) (state : Bool)
deriving DecidableEq, Repr

/-- Tags for the handlers registered in the `menu_actions` dict. -/
inductive HandlerTag where
  | mainMenu
  | modMenu
  | automodMenu
  | loggingMenu
  | reportsMenu
  | timeoutOrQuit
  | backHandler
deriving DecidableEq, Repr

/-- The `menu_actions` dispatch dict (source lines 548-557), as its
insertion-ordered pair list. -/
def menu_actions : List (String × HandlerTag) :=
  [("Main", HandlerTag.mainMenu),
   ("Moderation", HandlerTag.modMenu),
   ("Auto-Moderation", HandlerTag.automodMenu),
   ("Logging", HandlerTag.loggingMenu),
   ("Reports", HandlerTag.reportsMenu),
   ("Timeout", HandlerTag.timeoutOrQuit),
   ("Quit", HandlerTag.timeoutOrQuit),
   ("Back", HandlerTag.backHandler)]

/-- Python dict lookup `menu_actions[name]` resolved to an `Option`:
`none` is the `KeyError` case. -/
def menu_actions_lookup (name : String) : Option HandlerTag :=
  (menu_actions.find? (fun p => p.1 = name)).map Prod.snd

/-- `view.value in menu_actions.keys()` — a `BooleanButton` tuple is never a
key of the dict. -/
def value_in_menu_actions : ViewValue → Bool
  | ViewValue.str s => (menu_actions_lookup s).isSome
  | ViewValue.boolTuple _ _ => false

/-- Outcome of the unguarded `await menu_actions[name](ctx, message)` calls
(source lines 174 and 207): a dict index with an unregistered key raises
`KeyError` instead of failing silently. -/
inductive DispatchOutcome where
  | dispatched (tag : HandlerTag)
  | keyErrorRaised
deriving DecidableEq, Repr

/-- Python `menu_actions[name](...)` without a preceding membership guard. -/
def dispatch_unguarded (name : String) : DispatchOutcome :=
  match menu_actions_lookup name with
  | some tag => DispatchOutcome.dispatched tag
  | none => DispatchOutcome.keyErrorRaised

/-- Controls of a `ButtonMenuView` (source lines 116-137): a Back button when
nested, otherwise a Quit button, followed by the buttons passed in.  Each
control is named by the label that an interaction with it puts in
`view.value`. -/
def button_menu_controls (is_nested : Bool) (buttons : List String) : List String :=
  (if is_nested then ["Back"] else ["Quit"]) ++ buttons

/-- The labels of the option buttons `settings_main` builds (lines 189-194). -/
def settings_main_buttons : List String :=
  ["Moderation", "Auto-Moderation", "Logging", "Reports"]

/-- Every `view.value` a waited view over the given controls can produce:
one of its control labels, or `"Timeout"` from `MenuBaseView.on_timeout`. -/
def view_possible_values (controls : List String) : List String :=
  controls ++ ["Timeout"]

/-- Values `settings_main` can hand to `menu_actions[view.value]`. -/
def settings_main_values : List String :=
  view_possible_values (button_menu_controls false settings_main_buttons)

/-- Values `error_view_handler` can hand to `menu_actions[view.value]`. -/
def error_view_values : List String :=
  view_possible_values (button_menu_controls true [])

/-- Embeds `timeout_or_quit` (source lines 532-536): delete the ephemeral
message (failures swallowed by `helpers.maybe_delete`), nothing else. -/
def timeout_or_quit_step : List Effect := [Effect.delete]

/-- Embeds `back` (source lines 539-544): dispatch `menu_actions[ctx.parent]`
when `ctx.parent` is set, otherwise do nothing.  The result is the name the
step dispatches to, `none` when there is no dispatch. -/
def back_step (parent : Option String) : Option String :=
  match parent with
  | some p => some p
  | none => none

/-- What `error_view_handler` (source lines 165-174) does before waiting:
`ctx.parent = return_to`, then a nested `ButtonMenuView` with no extra
buttons, so its sole control is the Back button. -/
structure ErrorViewRender where
  parent : Option String
  controls : List String
deriving DecidableEq, Repr

def error_view_handler_render (return_to : String) : ErrorViewRender :=
  { parent := some return_to, controls := button_menu_controls true [] }

/-- The named menu pages of the navigator. -/
inductive MenuPage where
  | mainPage
  | moderationPage
  | autoModerationPage
  | loggingPage
  | reportsPage
deriving DecidableEq, Repr

/-- The assignment each menu handler makes to `ctx.parent` on entry:
`settings_main` sets `None` (line 197); `settings_mod` (line 227),
`settings_logging` (line 292) and `settings_report` (line 385) set `"Main"`;
the `settings_automod` stub assigns nothing and leaves the previous value. -/
def parent_after_entry : MenuPage → Option String → Option String
  | MenuPage.mainPage, _ => none
  | MenuPage.moderationPage, _ => some "Main"
  | MenuPage.autoModerationPage, prev => prev
  | MenuPage.loggingPage, _ => some "Main"
  | MenuPage.reportsPage, _ => some "Main"

/-! ### helpers.ask and the Reports menu -/

/-- Outcome of a nested `helpers.ask` prompt as `settings_report` and
`settings_logging` observe it: a resolved resource id, a raised `TypeError`,
or a raised `asyncio.TimeoutError`. -/
inductive AskResult where
  | resolved (id : Nat)
  | typeErrorRaised
  | timeoutRaised
deriving DecidableEq, Repr

/-- The user's input to an `ask` prompt: a select-menu choice, free text, or
no response before the prompt's timeout. -/
inductive AskInput where
  | selected (id : Nat)
  | freeText (txt : String)
  | noResponse
deriving DecidableEq, Repr

/-- Modelled from the spec: `helpers.ask`, which `settings.py` calls but
which is not present under src/.  Spec 4.2: the handler suspends for one
response, and "if a requested child resource (e.g., a channel or role)
cannot be resolved from free-text input, the handler renders an error
display" — the callers' `except TypeError` clauses show unresolvable input
surfacing as `TypeError`, and no response as `asyncio.TimeoutError`.
`resolve` is the platform's free-text resource resolution. -/
def ask (resolve : String → Option Nat) : AskInput → AskResult
  | AskInput.selected id => AskResult.resolved id
  | AskInput.freeText txt =>
      match resolve txt with
      | some id => AskResult.resolved id
      | none => AskResult.typeErrorRaised
  | AskInput.noResponse => AskResult.timeoutRaised

/-- The unconditional block at source lines 520-528: upsert of
`pinged_role_ids` into `reports`, then a cache refresh. -/
def reports_roles_upsert : List Effect :=
  [Effect.dbWrite "reports" "pinged_role_ids", Effect.cacheRefresh "reports"]

/-- Embeds one pass of `settings_report` (source lines 351-529) from the
point where its view resolves.  `pinged_role_ids` is the guild's stored
pinged-role list, `v` is `view.value`, and `ask1` is the outcome of the
nested `helpers.ask` prompt of whichever branch runs (unused by branches
that do not prompt).  `Effect.edit` is the handler's `maybe_edit` render;
`Next.menu "Reports"` covers both `menu_actions["Reports"]` dispatch and the
direct `settings_report(ctx, message)` re-entry, which share the handler.
Mirrored faithfully from the source: the `except asyncio.TimeoutError`
clauses call `menu_actions["Quit"]` (inlined here as `timeout_or_quit_step`)
with no `return`, so control falls through to the unconditional
`pinged_role_ids` upsert at lines 520-528. -/
def settings_report_step (pinged_role_ids : List Nat) (v : ViewValue) (ask1 : AskResult) :
    List Effect × Next :=
  let pre := [Effect.edit]
  match v with
  | ViewValue.boolTuple label _state =>
      if label = "Enabled" then
        (pre ++ [Effect.dbWrite "reports" "is_enabled", Effect.cacheRefresh "reports"],
         Next.menu "Reports")
      else
        (pre ++ reports_roles_upsert, Next.menu "Reports")
  | ViewValue.str s =>
      if value_in_menu_actions (ViewValue.str s) then
        (pre, Next.menu s)
      else if s = "Set Channel" then
        match ask1 with
        | AskResult.resolved _cid =>
            (pre ++ [Effect.dbWrite "reports" "channel_id", Effect.cacheRefresh "reports"],
             Next.menu "Reports")
        | AskResult.typeErrorRaised =>
            (pre, Next.errorView "Channel not found." "Reports")
        | AskResult.timeoutRaised =>
            (pre ++ timeout_or_quit_step ++ reports_roles_upsert, Next.menu "Reports")
      else if s = "Add Role" then
        match ask1 with
        | AskResult.resolved _rid =>
            (pre ++ reports_roles_upsert, Next.menu "Reports")
        | AskResult.typeErrorRaised =>
            (pre, Next.errorView "Role not found." "Reports")
        | AskResult.timeoutRaised =>
            (pre ++ timeout_or_quit_step ++ reports_roles_upsert, Next.menu "Reports")
      else if s = "Remove Role" then
        match ask1 with
        | AskResult.resolved rid =>
            if rid ∈ pinged_role_ids then
              (pre ++ reports_roles_upsert, Next.menu "Reports")
            else
              (pre, Next.errorView "Role not found." "Reports")
        | AskResult.typeErrorRaised =>
            (pre, Next.errorView "Role not found." "Reports")
        | AskResult.timeoutRaised =>
            (pre ++ timeout_or_quit_step ++ reports_roles_upsert, Next.menu "Reports")
      else
        (pre ++ reports_roles_upsert, Next.menu "Reports")

/-! ### The Logging menu's "Color logs" toggle -/

/-- The slice of storage the toggle touches: the guild's `log_config` row's
`color` column (`none` = no row for this guild), and the `db_cache` entry
for `(log_config, guild)` (`none` = not cached; `some row` = a cached
snapshot of the row). -/
structure LogConfigState where
  db : Option Bool
  cache : Option (Option Bool)
deriving DecidableEq, Repr

/-- `UPDATE log_config SET color = $1 WHERE guild_id = $2` (source lines
302-304): a plain UPDATE — it changes the row only when one exists and
inserts nothing. -/
def exec_update_color (s : LogConfigState) (color : Bool) : LogConfigState :=
  { s with db := s.db.map (fun _ => color) }

/-- `ctx.app.db_cache.refresh(table="log_config", guild_id=...)` (line 305):
reload the cache entry from the database. -/
def db_cache_refresh_log_config (s : LogConfigState) : LogConfigState :=
  { s with cache := some s.db }

/-- Modelled from the spec: the Logging plugin's `is_color_enabled` (called
at source line 290, not present under src/).  Spec 6: reads go through the
per-guild database cache scoped to table+guild; a guild with no `log_config`
row reads as disabled. -/
def is_color_enabled (s : LogConfigState) : Bool :=
  match s.cache with
  | some row => row.getD false
  | none => s.db.getD false

/-- The write the claim's word "upsert" denotes (spec glossary:
"insert-or-update-on-conflict write to a keyed configuration row"), stated
for comparison with `exec_update_color`. -/
def upsert_color (s : LogConfigState) (color : Bool) : LogConfigState :=
  { s with db := some color }

/-- The visual state of a `BooleanButton` (source lines 43-49 and 54-55). -/
structure ButtonVisual where
  style : String
  emoji : String
deriving DecidableEq, Repr

def boolean_button_visual (state : Bool) : ButtonVisual :=
  { style := if state then "SUCCESS" else "DANGER",
    emoji := if state then "✔️" else "✖️" }

/-- Embeds the "Color logs" toggle branch of `settings_logging` (source
lines 301-306) followed by the re-entry's fresh read (lines 290-291):
pressing the `BooleanButton` yields `view.value = ("Color logs", b)` with
`b` the toggled state; the branch executes the UPDATE, refreshes the cache
and re-invokes `settings_logging`, which calls `is_color_enabled` and
renders `BooleanButton(state=is_color)`.  Returns the effect trace, the
storage/cache state after the step, and the redrawn button's state. -/
def settings_logging_color_toggle (s : LogConfigState) (b : Bool) :
    List Effect × LogConfigState × Bool :=
  let s1 := exec_update_color s b
  let s2 := db_cache_refresh_log_config s1
  ([Effect.dbWrite "log_config" "color", Effect.cacheRefresh "log_config"],
   s2, is_color_enabled s2)

lemma send_one_page_is_ok (send : String → Except String Unit) (acc : List String)
    (page : String) : ∃ acc2, send_one_page send acc page = Except.ok acc2 := by
  cases h : send page <;> simp [send_one_page, except_try, Except.map, h]

lemma send_loop_is_ok (send : String → Except String Unit) (pages : List String)
    (acc : List String) :
    ∃ logged, pages.foldlM (send_one_page send) acc = Except.ok logged := by
  induction pages generalizing acc with
  | nil => exact ⟨acc, rfl⟩
  | cons p ps ih =>
    obtain ⟨acc2, h2⟩ := send_one_page_is_ok send acc p
    obtain ⟨logged, hl⟩ := ih acc2
    refine ⟨logged, ?_⟩
    simp only [List.foldlM, h2]
    exact hl

lemma log_error_is_ok (cfg : BotConfig) (pages : List String)
    (send : String → Except String Unit) :
    ∃ r, log_error_to_homeguild cfg pages send = Except.ok r := by
  unfold log_error_to_homeguild
  by_cases hc : channel_configured cfg = false
  · exact ⟨([], []), by simp [hc]⟩
  · obtain ⟨logged, hl⟩ := send_loop_is_ok send pages []
    exact ⟨(pages, logged.reverse), by simp [hc, hl, Except.map]⟩

lemma send_loop_all_fail (err : String → String) (pages acc : List String) :
    pages.foldlM (send_one_page (fun p => Except.error (err p))) acc =
      Except.ok ((pages.map err).reverse ++ acc) := by
  induction pages generalizing acc with
  | nil => rfl
  | cons p ps ih =>
    have h1 : send_one_page (fun q => Except.error (err q)) acc p =
        Except.ok (err p :: acc) := by
      simp [send_one_page, except_try, Except.map]
    simp only [List.foldlM, h1]
    exact (ih (err p :: acc)).trans (by simp)

lemma get_key_cons {K V : Type} [DecidableEq V] (k : K) (w : V) (d : List (K × V)) (v : V) :
    get_key ((k, w) :: d) v = if w = v then some k else get_key d v := by
  by_cases h : w = v
  · simp [get_key, list_index, h]
  · simp [get_key, list_index, h]

lemma get_key_eq_first_key_for {K V : Type} [DecidableEq V] (d : List (K × V)) (v : V) :
    get_key d v = first_key_for d v := by
  induction d with
  | nil => rfl
  | cons p rest ih =>
    obtain ⟨k, w⟩ := p
    rw [get_key_cons]
    by_cases h : w = v
    · simp [first_key_for, List.find?_cons, h]
    · simpa [first_key_for, List.find?_cons, h] using ih

lemma get_key_roundtrip {K V : Type} [DecidableEq V] (d : List (K × V))
    (hnd : (d.map Prod.snd).Nodup) (k : K) (v : V) (hm : (k, v) ∈ d) :
    get_key d v = some k := by
  induction d with
  | nil => cases hm
  | cons p rest ih =>
    obtain ⟨k', w⟩ := p
    simp only [List.map_cons, List.nodup_cons] at hnd
    rw [get_key_cons]
    rcases List.mem_cons.mp hm with hhead | htail
    · have hk : k' = k := (congrArg Prod.fst hhead).symm
      have hv : w = v := (congrArg Prod.snd hhead).symm
      rw [if_pos hv, hk]
    · have hwv : w ≠ v := by
        intro hwv
        exact hnd.1 (hwv ▸ (List.mem_map_of_mem Prod.snd htail))
      rw [if_neg hwv]
      exact ih hnd.2 htail

lemma compl_inter_eq_empty_iff (p s : Finset Perm) : pᶜ ∩ s = ∅ ↔ s ⊆ p := by
  rw [Finset.eq_empty_iff_forall_not_mem, Finset.subset_iff]
  constructor
  · intro h x hxs
    by_contra hxp
    exact h x (Finset.mem_inter.mpr ⟨Finset.mem_compl.mpr hxp, hxs⟩)
  · intro h x hx
    rcases Finset.mem_inter.mp hx with ⟨hc, hs⟩
    exact (Finset.mem_compl.mp hc) (h hs)

lemma report_set_channel_typeerror (pinged : List Nat) :
    settings_report_step pinged (ViewValue.str "Set Channel") AskResult.typeErrorRaised =
      ([Effect.edit], Next.errorView "Channel not found." "Reports") := rfl

/-! ## Claim theorems -/

/-- Claim C1.  The claim says every recognized error category gets its own
ephemeral embed and is not forwarded to the operator log channel.  This holds
for every recognized category except the permission-forbidden one: the
`hikari.ForbiddenError` branch builds its embed without a `return`, so the
handler falls through, responds with the generic unhandled-exception embed
and does forward the error — while the claim (and the sibling branches'
clear intent) require the `forbidden` variant and no forwarding.  The first
two conjuncts evaluate the code at that failing input against the expected
variant; the rest confirm every other category. -/
theorem forbidden_error_falls_through_to_unhandled :
    application_error_handler (LightbulbError.commandInvocationError OriginalError.forbiddenError) =
      { response := Response.unhandledException, forwarded := true } ∧
    expected_response (LightbulbError.commandInvocationError OriginalError.forbiddenError) =
      some Response.forbidden ∧
    application_error_handler LightbulbError.missingRequiredPermission =
      { response := Response.missingPermissions, forwarded := false } ∧
    application_error_handler LightbulbError.botMissingRequiredPermission =
      { response := Response.botMissingPermissions, forwarded := false } ∧
    application_error_handler LightbulbError.commandIsOnCooldown =
      { response := Response.cooldownPending, forwarded := false } ∧
    application_error_handler (LightbulbError.commandInvocationError OriginalError.timeoutError) =
      { response := Response.actionTimedOut, forwarded := false } ∧
    application_error_handler
        (LightbulbError.commandInvocationError OriginalError.internalServerError) =
      { response := Response.discordServerError, forwarded := false } ∧
    application_error_handler
        (LightbulbError.commandInvocationError OriginalError.roleHierarchyError) =
      { response := Response.roleHierarchy, forwarded := false } ∧
    application_error_handler LightbulbError.otherCheckFailure =
      { response := Response.unhandledException, forwarded := true } ∧
    application_error_handler (LightbulbError.commandInvocationError OriginalError.otherOriginal) =
      { response := Response.unhandledException, forwarded := true } ∧
    application_error_handler LightbulbError.otherLightbulbError =
      { response := Response.unhandledException, forwarded := true } := by
  decide

/-- Claim C2.  The claim says a Quit or view timeout always deletes the
ephemeral message with no database write after that point.  Evaluating the
code at the failing input — the Reports menu's "Set Channel" prompt timing
out — shows the session dispatches Quit (deleting the message) and then,
because the `except asyncio.TimeoutError` clause has no `return`, still
executes the `pinged_role_ids` upsert, refreshes the cache and re-enters the
Reports menu. -/
theorem report_set_channel_timeout_writes_after_delete :
    settings_report_step [] (ViewValue.str "Set Channel") AskResult.timeoutRaised =
      ([Effect.edit, Effect.delete, Effect.dbWrite "reports" "pinged_role_ids",
        Effect.cacheRefresh "reports"], Next.menu "Reports") := by
  decide

/-- Claim C3 counterexample.  The claim calls the toggle's write an upsert
and asserts the redraw always shows the newly persisted value.  For a guild
with no `log_config` row, toggling "Color logs" off to on executes the
plain UPDATE, which persists nothing (`db` stays `none`, where the upsert
the claim describes would store `some true`), and the redrawn control shows
off, not on. -/
theorem color_toggle_not_an_upsert :
    is_color_enabled { db := none, cache := none } = false ∧
    (settings_logging_color_toggle { db := none, cache := none } true).2.1.db = none ∧
    (upsert_color { db := none, cache := none } true).db = some true ∧
    (settings_logging_color_toggle { db := none, cache := none } true).2.2 = false := by
  decide

/-- Claim C3, amended.  Toggling the "Color logs" button executes exactly
one storage write (a plain UPDATE of the `color` column, not an upsert)
followed by exactly one cache refresh for `(log_config, guild)`, after which
the cache equals the database; and whenever the guild's `log_config` row
exists, the new boolean is persisted and the immediately following redraw
renders the control (state and visual) matching it. -/
theorem color_toggle_update_and_redraw :
    ∀ (s : LogConfigState) (b : Bool),
      (settings_logging_color_toggle s b).1 =
        [Effect.dbWrite "log_config" "color", Effect.cacheRefresh "log_config"] ∧
      (settings_logging_color_toggle s b).2.1.cache =
        some (settings_logging_color_toggle s b).2.1.db ∧
      (s.db.isSome = true →
        (settings_logging_color_toggle s b).2.1.db = some b ∧
        (settings_logging_color_toggle s b).2.2 = b ∧
        boolean_button_visual (settings_logging_color_toggle s b).2.2 =
          boolean_button_visual b) := by
  intro s b
  refine ⟨rfl, rfl, ?_⟩
  intro h
  obtain ⟨c, hc⟩ := Option.isSome_iff_exists.mp h
  simp [settings_logging_color_toggle, exec_update_color, db_cache_refresh_log_config,
        is_color_enabled, hc]

/-- Claim C3 witness: the amended theorem applied to a guild whose
`log_config` row exists with color off, toggled on. -/
theorem color_toggle_update_witness :
    (settings_logging_color_toggle { db := some false, cache := some (some false) } true).2.1.db =
      some true ∧
    (settings_logging_color_toggle { db := some false, cache := some (some false) } true).2.2 =
      true ∧
    boolean_button_visual
        (settings_logging_color_toggle { db := some false, cache := some (some false) } true).2.2 =
      boolean_button_visual true :=
  (color_toggle_update_and_redraw { db := some false, cache := some (some false) } true).2.2 rfl

/-- Claim C4.  An unhandled-category error's traceback pages are handed to
the operator log channel exactly when the `error_logging_channel`
configuration value is set and truthy; when it is unset the function
returns immediately, sending nothing and raising nothing. -/
theorem log_forwarding_iff_configured :
    ∀ (cfg : BotConfig) (pages : List String) (send : String → Except String Unit),
      attempted_pages (log_error_to_homeguild cfg pages send) =
        (if channel_configured cfg then pages else []) ∧
      (channel_configured cfg = false →
        log_error_to_homeguild cfg pages send = Except.ok ([], [])) := by
  intro cfg pages send
  constructor
  · cases hc : channel_configured cfg
    · simp [log_error_to_homeguild, hc, attempted_pages]
    · obtain ⟨logged, hl⟩ := send_loop_is_ok send pages []
      simp [log_error_to_homeguild, hc, hl, attempted_pages, Except.map]
  · intro h
    simp [log_error_to_homeguild, h]

/-- Claim C4 witness: with the channel unset, no page is sent and the call
returns normally, even when every send would fail. -/
theorem log_forwarding_unset_witness :
    log_error_to_homeguild { error_logging_channel := none } ["page"]
        (fun _ => Except.error "boom") = Except.ok ([], []) :=
  (log_forwarding_iff_configured { error_logging_channel := none } ["page"]
    (fun _ => Except.error "boom")).2 rfl

/-- Claim C5.  In the Reports menu's "Set Channel" flow, any free-text input
that resolves to no channel makes the handler render the "Channel not
found." error panel, whose view's only control is the Back button and whose
recorded parent is "Reports" (so Back dispatches to the Reports menu), with
no storage write for that input. -/
theorem report_set_channel_unresolved_free_text :
    ∀ (resolve : String → Option Nat) (txt : String) (pinged : List Nat),
      resolve txt = none →
      settings_report_step pinged (ViewValue.str "Set Channel")
          (ask resolve (AskInput.freeText txt)) =
        ([Effect.edit], Next.errorView "Channel not found." "Reports") ∧
      (error_view_handler_render "Reports").controls = ["Back"] ∧
      back_step (error_view_handler_render "Reports").parent = some "Reports" := by
  intro resolve txt pinged h
  have ha : ask resolve (AskInput.freeText txt) = AskResult.typeErrorRaised := by
    simp [ask, h]
  rw [ha]
  exact ⟨report_set_channel_typeerror pinged, rfl, rfl⟩

/-- Claim C5 witness: a concrete unresolvable free-text input. -/
theorem report_set_channel_unresolved_witness :
    settings_report_step [] (ViewValue.str "Set Channel")
        (ask (fun _ => none) (AskInput.freeText "xyz")) =
      ([Effect.edit], Next.errorView "Channel not found." "Reports") ∧
    (error_view_handler_render "Reports").controls = ["Back"] ∧
    back_step (error_view_handler_render "Reports").parent = some "Reports" :=
  report_set_channel_unresolved_free_text (fun _ => none) "xyz" [] rfl

/-- Claim C6.  Whatever the context's previous parent value, after entering
a nested menu (Moderation, Logging, Reports — each records "Main" — or the
error panel, which records its `return_to` argument) a Back action
dispatches exactly to the recorded parent name and to nothing else; and the
pointer is one level only: entering Main clears it, so Back dispatches
nowhere from there. -/
theorem back_returns_to_recorded_parent :
    ∀ prev : Option String,
      back_step (parent_after_entry MenuPage.moderationPage prev) = some "Main" ∧
      back_step (parent_after_entry MenuPage.loggingPage prev) = some "Main" ∧
      back_step (parent_after_entry MenuPage.reportsPage prev) = some "Main" ∧
      (∀ return_to : String,
        back_step (error_view_handler_render return_to).parent = some return_to) ∧
      back_step (parent_after_entry MenuPage.mainPage prev) = none := by
  intro prev
  exact ⟨rfl, rfl, rfl, fun _ => rfl, rfl⟩

/-- Claim C7 counterexample.  The claim says an unregistered value makes
dispatch fail silently rather than raise; but the dispatch sites at source
lines 174 and 207 index the dict unguarded, so an unregistered value raises
`KeyError` there instead of failing silently. -/
theorem unregistered_dispatch_raises_keyerror :
    dispatch_unguarded "Bogus" = DispatchOutcome.keyErrorRaised := by
  decide

/-- Claim C7, amended.  Every value the unguarded dispatch sites can receive
(`settings_main` over its buttons, Quit and timeout; `error_view_handler`
over Back and timeout) is a registered key of `menu_actions`; and the
handlers that accept free-form values only dispatch after an explicit
membership guard, so any value that passes the guard is a registered string
key.  An unregistered value at an unguarded site would raise `KeyError`
rather than fail silently (no reachable value is one). -/
theorem menu_dispatch_values_registered :
    (∀ s ∈ settings_main_values, (menu_actions_lookup s).isSome = true) ∧
    (∀ s ∈ error_view_values, (menu_actions_lookup s).isSome = true) ∧
    (∀ v : ViewValue, value_in_menu_actions v = true →
      ∃ s, v = ViewValue.str s ∧ (menu_actions_lookup s).isSome = true) := by
  refine ⟨?_, ?_, ?_⟩
  · intro s hs
    have hall : settings_main_values.all (fun t => (menu_actions_lookup t).isSome) = true := by
      decide
    exact List.all_eq_true.mp hall s hs
  · intro s hs
    have hall : error_view_values.all (fun t => (menu_actions_lookup t).isSome) = true := by
      decide
    exact List.all_eq_true.mp hall s hs
  · intro v hv
    cases v with
    | str s => exact ⟨s, rfl, by simpa [value_in_menu_actions] using hv⟩
    | boolTuple l b => simp [value_in_menu_actions] at hv

/-- Claim C7 witness: the amended theorem applied at concrete values of each
guarded and unguarded site. -/
theorem menu_dispatch_values_witness :
    (menu_actions_lookup "Quit").isSome = true ∧
    (menu_actions_lookup "Back").isSome = true ∧
    (∃ s, ViewValue.str "Main" = ViewValue.str s ∧ (menu_actions_lookup s).isSome = true) :=
  ⟨menu_dispatch_values_registered.1 "Quit" (by decide),
   menu_dispatch_values_registered.2.1 "Back" (by decide),
   menu_dispatch_values_registered.2.2 (ViewValue.str "Main") (by decide)⟩

/-- Claim C8.  Delivery of a forwarded traceback is best effort: whatever
each page's send does, the function finishes normally (first conjunct), and
when every send raises, every page is still attempted and each raised error
is caught and logged in page order (second conjunct). -/
theorem page_send_failures_never_propagate :
    (∀ (cfg : BotConfig) (pages : List String) (send : String → Except String Unit),
      ∃ r, log_error_to_homeguild cfg pages send = Except.ok r) ∧
    (∀ (pages : List String) (err : String → String),
      log_error_to_homeguild { error_logging_channel := some 1 } pages
          (fun p => Except.error (err p)) = Except.ok (pages, pages.map err)) := by
  constructor
  · exact log_error_is_ok
  · intro pages err
    have h := send_loop_all_fail err pages []
    simp [log_error_to_homeguild, channel_configured, h, Except.map]

/-- Claim C9.  `includes_permissions` returns true exactly when the
permission set carries ADMINISTRATOR (regardless of `should_include`) or
every flag of `should_include` is present in `permissions`. -/
theorem includes_permissions_spec :
    ∀ (permissions should_include : Permissions),
      includes_permissions permissions should_include = true ↔
        (Perm.administrator ∈ permissions ∨ should_include ⊆ permissions) := by
  intro p s
  unfold includes_permissions
  by_cases hadm : Perm.administrator ∈ p
  · simp [hadm]
  · rw [if_neg hadm]
    by_cases hc : pᶜ ∩ s = ∅
    · have hs : s ⊆ p := (compl_inter_eq_empty_iff p s).mp hc
      simp [hc, hs, hadm]
    · have hs : ¬s ⊆ p := fun hsub => hc ((compl_inter_eq_empty_iff p s).mpr hsub)
      simp [hc, hs, hadm]

/-- Claim C10.  `get_key` returns the first key in insertion order whose
value equals the argument (first conjunct, against the independent
first-match specification), and on a dictionary with pairwise distinct
values it inverts lookup: `get_key d (d[k]) = k` (second conjunct). -/
theorem get_key_first_match_and_roundtrip :
    ∀ (K V : Type) (inst : DecidableEq V) (d : List (K × V)) (v : V),
      @get_key K V inst d v = @first_key_for K V inst d v ∧
      (∀ k : K, (d.map Prod.snd).Nodup → (k, v) ∈ d → @get_key K V inst d v = some k) := by
  intro K V inst d v
  exact ⟨get_key_eq_first_key_for d v, fun k hnd hm => get_key_roundtrip d hnd k v hm⟩

/-- Claim C10 witness: the round trip on a concrete two-entry dictionary
with distinct values, and the first-match form there. -/
theorem get_key_roundtrip_witness :
    get_key [(10, 1), (20, 2)] 2 = some 20 ∧
    get_key [(10, 1), (20, 2)] 2 = first_key_for [(10, 1), (20, 2)] 2 :=
  ⟨(get_key_first_match_and_roundtrip Nat Nat inferInstance [(10, 1), (20, 2)] 2).2 20
      (by decide) (by decide),
   (get_key_first_match_and_roundtrip Nat Nat inferInstance [(10, 1), (20, 2)] 2).1⟩
